import Mathlib

/-!
Formal model of the SmartLearn backend (`src/backend/server.py`).

The server is a FastAPI application with three POST handlers (summarize,
translate, quiz) and one GET handler (history), backed by an in-process
model registry and a MongoDB collection `saved_content`.

Modelling conventions:
* Python strings that the handlers slice and measure (`request.text`,
  summaries, translations) are `List Char`; Python `text[:n]` is
  `List.take n` and `len` is `List.length`.  Fixed identifiers (model
  registry keys, language codes, HTTP detail messages, JSON keys) stay
  `String`.
* Python exceptions are values of `PyExc`: `HTTPException(status, detail)`
  raised by the handlers, or a generic exception carrying its `str(e)`
  message.  Each handler body is a pure function returning
  `Except`; a separate wrapper function reproduces the handler's
  `try/except` clauses exactly as written in the source.
* External effects are reified: the argument of each local-pipeline call
  is recorded in `pipelineInputs`, and every MongoDB write is recorded as
  a `DbOp`.  Nondeterministic inputs (the loaded pipelines' outputs, the
  LLM reply, `uuid.uuid4()`, `datetime.now()`, the environment variables)
  are fields of an environment record passed to the handler.
-/

namespace SmartLearn

/-- A Python exception as the handlers' `except` clauses see it:
either a raised `HTTPException(status_code, detail)` or a generic
exception whose `str(e)` is the stored message. -/
inductive PyExc where
  | http : Nat → String → PyExc
  | exc : String → PyExc
deriving DecidableEq, Repr

/-- Python `str(e)`.  For a starlette `HTTPException` this is
`"{status_code}: {detail}"`; for a generic exception it is its message. -/
def PyExc.message : PyExc → String
  | .http s d => toString s ++ ": " ++ d
  | .exc m => m

/-- One multiple-choice question, mirroring the pydantic model
`QuizQuestion(question, options, correct_answer, explanation)`. -/
structure QuizQuestion where
  question : String
  options : List String
  correct_answer : String
  explanation : String
deriving DecidableEq, Repr

/-- The `result` dict stored in a `saved_content` document: the summarize
handler stores `{"summary": ...}`, the translate handler stores
`{"translated_text", "source_lang", "target_lang"}`, and the quiz handler
stores `{"questions": [...]}`. -/
inductive ResultPayload where
  | summaryResult : List Char → ResultPayload
  | translationResult : List Char → String → String → ResultPayload
  | quizResult : List QuizQuestion → ResultPayload
deriving DecidableEq, Repr

/-- The document each handler builds and passes to
`db.saved_content.insert_one`: a fresh uuid `id`, the `content_type`
tag, the full request text, the handler-specific `result` payload, and
an ISO-format creation timestamp. -/
structure SavedDoc where
  id : String
  content_type : String
  original_text : List Char
  result : ResultPayload
  timestamp : String
deriving DecidableEq, Repr

/-- A write operation on the `saved_content` collection.  The constructors
enumerate the write primitives the MongoDB driver offers to this code;
`server.py` only ever issues `insertOne` (the history route only reads). -/
inductive DbOp where
  | insertOne : SavedDoc → DbOp
  | updateOne : SavedDoc → DbOp
  | deleteOne : String → DbOp
deriving DecidableEq, Repr

/-- Whether a database operation is an insert. -/
def DbOp.isInsert : DbOp → Bool
  | .insertOne _ => true
  | _ => false

/-- An HTTP error response produced by a raised-and-propagated
`HTTPException`: a status code and a detail message. -/
structure HttpError where
  status_code : Nat
  detail : String
deriving DecidableEq, Repr

/-- The observable outcome of one handler invocation: the HTTP-level
result, the arguments passed to local inference pipelines (in call
order), and the database writes issued (in call order). -/
structure HandlerResult (ρ : Type) where
  outcome : Except HttpError ρ
  pipelineInputs : List (List Char)
  dbOps : List DbOp

/-- The status code of the response when the handler failed. -/
def HandlerResult.errorStatus (r : HandlerResult ρ) : Option Nat :=
  match r.outcome with
  | .error e => some e.status_code
  | .ok _ => none

/-- The keys inserted into the global `models` dict by the `load_models`
startup hook when every `pipeline(...)` call succeeds: one summarizer and
eight English-to-X translation models. -/
def load_models_keys : List String :=
  ["summarizer",
   "translator_en_es", "translator_en_fr", "translator_en_de",
   "translator_en_it", "translator_en_pt", "translator_en_nl",
   "translator_en_ru", "translator_en_zh"]

/-- The language pairs of the eight translation models loaded at startup,
read off the `translator_<src>_<tgt>` key names in `load_models`. -/
def loadedTranslatorPairs : List (String × String) :=
  [("en", "es"), ("en", "fr"), ("en", "de"), ("en", "it"),
   ("en", "pt"), ("en", "nl"), ("en", "ru"), ("en", "zh")]

/-! ## Summarize handler -/

/-- The body of `POST /api/summarize` after pydantic validation:
`text` (validated to 10..5000 chars by the `SummarizeRequest` model) and
the optional length bounds with their pydantic defaults. -/
structure SummarizeRequest where
  text : List Char
  max_length : Int := 150
  min_length : Int := 40

/-- The `SummarizeResponse` pydantic model. -/
structure SummarizeResponse where
  summary : List Char
  original_length : Nat
  summary_length : Nat
deriving DecidableEq, Repr

/-- Environment of one summarize invocation: the keys present in the
`models` registry, the summarizer pipeline as a function from
(text, max_length, min_length) to either a summary or a raised
exception's message, and the fresh uuid / timestamp drawn during the
request. -/
structure SumEnv where
  models : List String
  summarizer : List Char → Int → Int → Except String (List Char)
  newId : String
  now : String

/-- The `try:` body of `summarize_text`: raise 503 when `"summarizer"`
is not in `models`; truncate the text to 1024 chars; run the pipeline
(recording its input); build the `saved_content` document and the
response.  Returns the raised exception or the response and document,
together with the recorded pipeline inputs. -/
def summarize_body (env : SumEnv) (req : SummarizeRequest) :
    Except PyExc (SummarizeResponse × SavedDoc) × List (List Char) :=
  if "summarizer" ∉ env.models then
    (.error (.http 503 "Summarizer model not loaded"), [])
  else
    let text_to_process :=
      if req.text.length > 1024 then req.text.take 1024 else req.text
    match env.summarizer text_to_process req.max_length req.min_length with
    | .error m => (.error (.exc m), [text_to_process])
    | .ok summary =>
      let doc : SavedDoc :=
        ⟨env.newId, "summary", req.text, .summaryResult summary, env.now⟩
      (.ok (⟨summary, req.text.length, summary.length⟩, doc), [text_to_process])

/-- The `summarize_text` handler.  Its only exception clause is
`except Exception: raise HTTPException(500, f"Summarization failed: {e}")`,
and `HTTPException` is a subclass of `Exception`, so the 503 raised for a
missing model is also caught here and resurfaces as a 500 whose detail
embeds `str(e) = "503: Summarizer model not loaded"`.  A successful body
issues exactly the one `insert_one` recorded in its document. -/
def summarize_text (env : SumEnv) (req : SummarizeRequest) :
    HandlerResult SummarizeResponse :=
  match summarize_body env req with
  | (.ok (resp, doc), pins) => ⟨.ok resp, pins, [.insertOne doc]⟩
  | (.error e, pins) =>
      ⟨.error ⟨500, "Summarization failed: " ++ e.message⟩, pins, []⟩

/-- Request validation for the summarize route, modelled from the
pydantic constraints `Field(..., min_length=10, max_length=5000)` on
`SummarizeRequest.text`. -/
def summarizeTextValid (text : List Char) : Bool :=
  10 ≤ text.length && text.length ≤ 5000

/-- The summarize route as seen by a client: FastAPI runs pydantic
validation before the handler, and `server.py` installs no custom
`RequestValidationError` handler, so a constraint violation is answered
by the framework's standard 422 response (its body is a structured
validation report; only the status is modelled here) and the handler
is never entered. -/
def summarize_route (env : SumEnv) (req : SummarizeRequest) :
    HandlerResult SummarizeResponse :=
  if summarizeTextValid req.text then summarize_text env req
  else ⟨.error ⟨422, "request validation error"⟩, [], []⟩

/-! ## Translate handler -/

/-- The body of `POST /api/translate` after pydantic validation:
`text` (1..5000 chars), a source language defaulting to `"en"`, and a
required target language. -/
structure TranslateRequest where
  text : List Char
  source_lang : String := "en"
  target_lang : String

/-- The `TranslateResponse` pydantic model. -/
structure TranslateResponse where
  original_text : List Char
  translated_text : List Char
  source_lang : String
  target_lang : String
deriving DecidableEq, Repr

/-- Environment of one translate invocation: registry keys, the loaded
translation pipelines as a function from (registry key, text) to a
translation or an exception message, and the fresh uuid / timestamp. -/
structure TransEnv where
  models : List String
  translator : String → List Char → Except String (List Char)
  newId : String
  now : String

/-- Python `str.lower()` on a language code, applied character by
character (language codes are ASCII, where `Char.toLower` agrees with
Python's lowering). -/
def pyLower (s : String) : String := ⟨s.data.map Char.toLower⟩

/-- The dict literal mapping language pairs to model-registry keys inside
`translate_text`; only two of the eight loaded translators appear. -/
def model_map : List ((String × String) × String) :=
  [(("en", "es"), "translator_en_es"),
   (("en", "fr"), "translator_en_fr")]

/-- The `try:` body of `translate_text`: lower-case the language pair,
raise 400 when it is not a key of `model_map`, raise 503 when the mapped
key is missing from `models`, truncate the text to 512 chars, run the
pipeline (recording its input), and build the document and response. -/
def translate_body (env : TransEnv) (req : TranslateRequest) :
    Except PyExc (TranslateResponse × SavedDoc) × List (List Char) :=
  let lang_pair := (pyLower req.source_lang, pyLower req.target_lang)
  match model_map.lookup lang_pair with
  | none =>
      (.error (.http 400 "Unsupported language pair. Supported: en->es, en->fr"), [])
  | some model_key =>
    if model_key ∉ env.models then
      (.error (.http 503 "Translation model not loaded"), [])
    else
      let text_to_process :=
        if req.text.length > 512 then req.text.take 512 else req.text
      match env.translator model_key text_to_process with
      | .error m => (.error (.exc m), [text_to_process])
      | .ok translated =>
        let doc : SavedDoc :=
          ⟨env.newId, "translation", req.text,
            .translationResult translated req.source_lang req.target_lang,
            env.now⟩
        (.ok (⟨req.text, translated, req.source_lang, req.target_lang⟩, doc),
          [text_to_process])

/-- The `translate_text` handler.  Unlike the other two handlers it has
an `except HTTPException: raise` clause before the blanket
`except Exception`, so raised 400/503 exceptions propagate with their own
status, and only genuine pipeline failures become a 500. -/
def translate_text (env : TransEnv) (req : TranslateRequest) :
    HandlerResult TranslateResponse :=
  match translate_body env req with
  | (.ok (resp, doc), pins) => ⟨.ok resp, pins, [.insertOne doc]⟩
  | (.error (.http s d), pins) => ⟨.error ⟨s, d⟩, pins, []⟩
  | (.error (.exc m), pins) =>
      ⟨.error ⟨500, "Translation failed: " ++ m⟩, pins, []⟩

/-! ## Quiz handler -/

/-- The body of `POST /api/quiz` after pydantic validation: `text`
(10..5000 chars) and the question count (1..10, default 5). -/
structure QuizRequest where
  text : List Char
  num_questions : Int := 5

/-- The `QuizResponse` pydantic model. -/
structure QuizResponse where
  questions : List QuizQuestion
  source_text : List Char
deriving DecidableEq, Repr

/-- A parsed JSON value, the result of Python's `json.loads`. -/
inductive Json where
  | str : String → Json
  | num : Int → Json
  | bool : Bool → Json
  | null : Json
  | arr : List Json → Json
  | obj : List (String × Json) → Json

/-- Python `value[key]` on a parsed JSON value: a `KeyError` when the key
is absent, a `TypeError` when the value is not a dict. -/
def Json.getKey (j : Json) (k : String) : Except String Json :=
  match j with
  | .obj fields =>
    match fields.lookup k with
    | some v => .ok v
    | none => .error ("KeyError: " ++ k)
  | _ => .error "TypeError: value is not a dict"

/-- Pydantic coercion of a JSON value to a `str` field. -/
def Json.asStr : Json → Except String String
  | .str s => .ok s
  | _ => .error "validation error: str expected"

/-- Pydantic coercion of a JSON value to a `List[str]` field. -/
def Json.asStrList : Json → Except String (List String)
  | .arr items => items.mapM Json.asStr
  | _ => .error "validation error: list expected"

/-- `QuizQuestion(**q)`: pydantic validation of one question object;
any missing or ill-typed field raises a `ValidationError`. -/
def parseQuizQuestion (j : Json) : Except String QuizQuestion := do
  let q ← j.getKey "question" >>= Json.asStr
  let opts ← j.getKey "options" >>= Json.asStrList
  let ca ← j.getKey "correct_answer" >>= Json.asStr
  let ex ← j.getKey "explanation" >>= Json.asStr
  pure ⟨q, opts, ca, ex⟩

/-- The markdown code-fence stripping applied to the raw LLM reply:
`strip()`, drop a leading triple-backtick-json fence (7 chars), drop a
trailing triple-backtick fence (3 chars), `strip()` again. -/
def stripCodeFences (response : String) : String :=
  let response_text := response.trim
  let response_text :=
    if response_text.startsWith "```json" then response_text.drop 7
    else response_text
  let response_text :=
    if response_text.endsWith "```" then response_text.dropRight 3
    else response_text
  response_text.trim

/-- How one quiz invocation can fail: an exception raised before the
function-local `import json` statement executes (the 503 for a missing
key, or an LLM-call failure), a `json.JSONDecodeError` from
`json.loads`, or a post-parse exception (`KeyError` on `"questions"`,
pydantic `ValidationError`). -/
inductive QuizFailure where
  | preImport : PyExc → QuizFailure
  | decodeError : String → QuizFailure
  | schemaError : String → QuizFailure
deriving DecidableEq, Repr

/-- Environment of one quiz invocation: the `EMERGENT_LLM_KEY`
environment variable (absent, or present with a value), the LLM chat
round-trip — the prompt is a fixed template of the question count and
the request text, so the call is modelled as a function of those two,
returning the reply text or a raised exception's message —
`json.loads` as an abstract parser, and the fresh uuid / timestamp. -/
structure QuizEnv where
  emergent_key : Option String
  sendMessage : Int → List Char → Except String String
  jsonLoads : String → Except String Json
  newId : String
  now : String

/-- Parsing stage of `generate_quiz`: fence-strip the reply, `json.loads`
it (a failure is a `JSONDecodeError`), index `quiz_data["questions"]` and
validate each entry as a `QuizQuestion` (failures there are generic
exceptions). -/
def parseQuizResponse (loads : String → Except String Json)
    (response : String) : Except QuizFailure (List QuizQuestion) :=
  match loads (stripCodeFences response) with
  | .error m => .error (.decodeError m)
  | .ok quiz_data =>
    match quiz_data.getKey "questions" with
    | .error m => .error (.schemaError m)
    | .ok qs =>
      match qs with
      | .arr items =>
        match items.mapM parseQuizQuestion with
        | .error m => .error (.schemaError m)
        | .ok questions => .ok questions
      | _ => .error (.schemaError "TypeError: questions is not a list")

/-- The `try:` body of `generate_quiz`: raise 503 when the key is unset
or empty (Python `if not emergent_key`), send the prompt to the LLM,
then parse the reply; on success build the document and response. -/
def generate_quiz_body (env : QuizEnv) (req : QuizRequest) :
    Except QuizFailure (QuizResponse × SavedDoc) :=
  if env.emergent_key.getD "" = "" then
    .error (.preImport (.http 503 "API key not configured"))
  else
    match env.sendMessage req.num_questions req.text with
    | .error m => .error (.preImport (.exc m))
    | .ok response =>
      match parseQuizResponse env.jsonLoads response with
      | .error f => .error f
      | .ok questions =>
        let doc : SavedDoc :=
          ⟨env.newId, "quiz", req.text, .quizResult questions, env.now⟩
        .ok (⟨questions, req.text⟩, doc)

/-- The `generate_quiz` handler.  Its exception clauses are
`except json.JSONDecodeError` then `except Exception`, but `import json`
is a function-local import placed after the LLM call: an exception
raised before that line (the 503 for a missing key, an LLM failure)
makes the evaluation of `except json.JSONDecodeError` itself fail on the
unbound local `json`, so the request escapes the handler and the
framework answers with its plain 500 response.  A `JSONDecodeError`
becomes a 500 with a fixed detail; any later exception becomes a 500
with the `"Quiz generation failed:"` detail. -/
def generate_quiz (env : QuizEnv) (req : QuizRequest) :
    HandlerResult QuizResponse :=
  match generate_quiz_body env req with
  | .ok (resp, doc) => ⟨.ok resp, [], [.insertOne doc]⟩
  | .error (.preImport _) => ⟨.error ⟨500, "Internal Server Error"⟩, [], []⟩
  | .error (.decodeError _) =>
      ⟨.error ⟨500, "Failed to parse quiz response"⟩, [], []⟩
  | .error (.schemaError m) =>
      ⟨.error ⟨500, "Quiz generation failed: " ++ m⟩, [], []⟩

/-! ## History handler -/

/-- A document as stored in the `saved_content` collection: the fields
written by the handlers plus MongoDB's internal `_id`, assigned on
insert. -/
structure StoredDoc where
  mongo_id : String
  id : String
  content_type : String
  original_text : List Char
  result : ResultPayload
  timestamp : String
deriving DecidableEq, Repr

/-- A history record as returned to the client: the stored fields with
the internal `_id` projected away by `find({}, {"_id": 0})`. -/
structure HistoryDoc where
  id : String
  content_type : String
  original_text : List Char
  result : ResultPayload
  timestamp : String
deriving DecidableEq, Repr

/-- The `{"_id": 0}` projection on one document. -/
def StoredDoc.stripMongoId (d : StoredDoc) : HistoryDoc :=
  ⟨d.id, d.content_type, d.original_text, d.result, d.timestamp⟩

/-- Descending timestamp order on stored documents: the comparison
`sort("timestamp", -1)` performs (ISO-format timestamp strings compare
lexicographically, which is their chronological order). -/
def tsDesc (a b : StoredDoc) : Prop := b.timestamp ≤ a.timestamp

instance : DecidableRel tsDesc := fun a b =>
  inferInstanceAs (Decidable (b.timestamp ≤ a.timestamp))

instance : IsTotal StoredDoc tsDesc :=
  ⟨fun a b => le_total b.timestamp a.timestamp⟩

instance : IsTrans StoredDoc tsDesc :=
  ⟨fun _ _ _ hab hbc => le_trans hbc hab⟩

/-- The `get_history` handler on a collection state: sort the whole
collection by timestamp, newest first, keep at most 20 documents, and
strip the internal `_id` from each. -/
def get_history (coll : List StoredDoc) : List HistoryDoc :=
  ((List.insertionSort tsDesc coll).take 20).map StoredDoc.stripMongoId

/-! ## Helper lemmas -/

/-- Python's `text[:n] if len(text) > n else text` is `List.take n` in
both branches. -/
theorem truncate_eq_take (l : List Char) (n : Nat) :
    (if l.length > n then l.take n else l) = l.take n := by
  split
  · rfl
  · exact (List.take_of_length_le (by omega)).symm

/-- Characterization of the `model_map` dict lookup. -/
theorem model_map_lookup_eq (p : String × String) :
    model_map.lookup p =
      if p = ("en", "es") then some "translator_en_es"
      else if p = ("en", "fr") then some "translator_en_fr"
      else none := by
  by_cases h1 : p = ("en", "es")
  · subst h1; decide
  · by_cases h2 : p = ("en", "fr")
    · subst h2; decide
    · rw [if_neg h1, if_neg h2]
      have b1 : (p == (("en", "es") : String × String)) = false := by
        simpa using h1
      have b2 : (p == (("en", "fr") : String × String)) = false := by
        simpa using h2
      simp [model_map, List.lookup, b1, b2]

/-- An unsupported (lower-cased) language pair makes `translate_text`
return the fixed 400 without touching the pipeline or the database. -/
theorem translate_unsupported_aux (env : TransEnv) (req : TranslateRequest)
    (h : model_map.lookup (pyLower req.source_lang, pyLower req.target_lang) = none) :
    translate_text env req =
      ⟨.error ⟨400, "Unsupported language pair. Supported: en->es, en->fr"⟩, [], []⟩ := by
  unfold translate_text translate_body
  simp only [h]

/-! ## Claims -/

/-- Claim C1 is refuted by the code: for a valid summarize request with
the summarizer missing from the model registry, the handler answers 500,
not 503.  The `raise HTTPException(503, ...)` sits inside the `try:`
whose only clause is `except Exception`, which catches `HTTPException`
too and re-raises it as a 500 wrapping `str(e)`. -/
theorem summarize_model_absent_yields_500 :
    summarize_text ⟨[], fun _ _ _ => .ok [], "id0", "t0"⟩
        ⟨"The mitochondria is the powerhouse of the cell.".toList, 150, 40⟩ =
      ⟨.error ⟨500, "Summarization failed: 503: Summarizer model not loaded"⟩,
        [], []⟩ := rfl

/-- Claim C2 is refuted by the code: for a valid quiz request with the
LLM API key absent from the environment, the handler answers 500, not
503.  The raised 503 is not re-raised: evaluating
`except json.JSONDecodeError` fails on the unbound function-local
`json` (its `import` sits after the LLM call), so the request escapes
the handler and the framework answers with its plain 500. -/
theorem quiz_missing_key_yields_500 :
    generate_quiz ⟨none, fun _ _ => .ok "", fun _ => .error "", "id0", "t0"⟩
        ⟨"Photosynthesis converts light into chemical energy.".toList, 5⟩ =
      ⟨.error ⟨500, "Internal Server Error"⟩, [], []⟩ := rfl

/-- Claim C8, counterexample to the stated status code: a summarize
request whose text has 5 characters is rejected before the handler runs,
but with the framework's 422, not with 400. -/
theorem summarize_short_input_rejected_422_not_400 :
    (summarize_route ⟨["summarizer"], fun _ _ _ => .ok [], "id0", "t0"⟩
        ⟨"short".toList, 150, 40⟩).errorStatus = some 422 ∧
    (422 : Nat) ≠ 400 := ⟨rfl, by decide⟩

/-- Claim C8 (amended): a summarize request whose text is shorter than
10 or longer than 5000 characters is rejected by request validation
with HTTP 422, and neither the pipeline nor the database is invoked. -/
theorem summarize_out_of_bounds_rejected (env : SumEnv) (req : SummarizeRequest)
    (h : req.text.length < 10 ∨ req.text.length > 5000) :
    summarize_route env req =
      ⟨.error ⟨422, "request validation error"⟩, [], []⟩ := by
  unfold summarize_route
  rw [if_neg]
  simp only [summarizeTextValid, Bool.and_eq_true, decide_eq_true_eq, not_and]
  omega

/-- Witness for the amended claim C8 at a concrete 5-character input. -/
theorem summarize_out_of_bounds_rejected_witness :
    summarize_route ⟨["summarizer"], fun _ _ _ => .ok [], "id0", "t0"⟩
        ⟨"short".toList, 150, 40⟩ =
      ⟨.error ⟨422, "request validation error"⟩, [], []⟩ :=
  summarize_out_of_bounds_rejected _ _ (by decide)

/-- A concrete 10-plus-character text used to instantiate theorems. -/
def demoText : List Char :=
  "The mitochondria is the powerhouse of the cell.".toList

/-- A concrete summarize environment with the summarizer loaded. -/
def demoSumEnv : SumEnv :=
  ⟨["summarizer"], fun _ _ _ => .ok "A short summary.".toList, "id0", "t0"⟩

/-- A concrete translate environment with every startup model loaded. -/
def demoTransEnv : TransEnv :=
  ⟨load_models_keys, fun _ _ => .ok "hola".toList, "id0", "t0"⟩

/-- A concrete quiz environment whose LLM reply is not JSON. -/
def demoQuizEnv : QuizEnv :=
  ⟨some "key-123", fun _ _ => .ok "this is not json",
    fun _ => .error "Expecting value: line 1 column 1 (char 0)", "id0", "t0"⟩

/-- A 600-character input, longer than the 512-character translate budget. -/
def demoLongText : List Char := List.replicate 600 'a'

/-- A concrete collection state with out-of-order timestamps. -/
def demoColl : List StoredDoc :=
  [⟨"m1", "i1", "summary", demoText, .summaryResult [], "2024-01-01T00:00:00"⟩,
   ⟨"m2", "i2", "quiz", demoText, .quizResult [], "2024-03-01T00:00:00"⟩,
   ⟨"m3", "i3", "translation", demoText,
     .translationResult [] "en" "es", "2024-02-01T00:00:00"⟩]

/-- Claim C4: a translate request whose lower-cased language pair is not
a key of `model_map` gets the fixed 400 response and invokes neither the
pipeline nor the database. -/
theorem translate_unsupported_pair_400 (env : TransEnv) (req : TranslateRequest)
    (h : (pyLower req.source_lang, pyLower req.target_lang) ∉
      [(("en" : String), ("es" : String)), ("en", "fr")]) :
    translate_text env req =
      ⟨.error ⟨400, "Unsupported language pair. Supported: en->es, en->fr"⟩, [], []⟩ := by
  apply translate_unsupported_aux
  rw [model_map_lookup_eq]
  simp only [List.mem_cons, List.not_mem_nil, or_false, not_or] at h
  rw [if_neg h.1, if_neg h.2]

/-- Witness for claim C4 at the concrete pair en->de. -/
theorem translate_unsupported_pair_400_witness :
    translate_text demoTransEnv ⟨"hello".toList, "en", "de"⟩ =
      ⟨.error ⟨400, "Unsupported language pair. Supported: en->es, en->fr"⟩, [], []⟩ :=
  translate_unsupported_pair_400 _ _ (by decide)

/-- Claim C7: eight translator models are loaded at startup, the
handler's pair map accepts exactly en->es and en->fr, and every request
for one of the six other loaded pairs is rejected with the fixed 400. -/
theorem translation_wiring_gap :
    loadedTranslatorPairs.length = 8 ∧
    (∀ p : String × String,
      (model_map.lookup p).isSome ↔ p = ("en", "es") ∨ p = ("en", "fr")) ∧
    (∀ p ∈ loadedTranslatorPairs,
      p ∉ [(("en" : String), ("es" : String)), ("en", "fr")] →
      ∀ (env : TransEnv) (req : TranslateRequest),
        req.source_lang = p.1 → req.target_lang = p.2 →
        translate_text env req =
          ⟨.error ⟨400, "Unsupported language pair. Supported: en->es, en->fr"⟩,
            [], []⟩) := by
  refine ⟨rfl, ?_, ?_⟩
  · intro p
    rw [model_map_lookup_eq]
    by_cases h1 : p = ("en", "es")
    · simp [h1]
    · by_cases h2 : p = ("en", "fr") <;> simp [h1, h2]
  · intro p hp hne env req h1 h2
    apply translate_unsupported_aux
    rw [h1, h2]
    fin_cases hp
    · exact absurd (by decide) hne
    · exact absurd (by decide) hne
    all_goals decide

/-- Claim C6: on a successful summarize request the pipeline receives
the input truncated to the fixed 1024-character budget, the response's
`original_length` is the length of the full input and `summary_length`
the length of the returned summary, and both are non-negative. -/
theorem summarize_success_spec (env : SumEnv) (req : SummarizeRequest)
    (summary : List Char)
    (hmodel : "summarizer" ∈ env.models)
    (hpipe : env.summarizer (req.text.take 1024) req.max_length req.min_length
      = .ok summary) :
    (summarize_text env req).pipelineInputs = [req.text.take 1024] ∧
    (summarize_text env req).outcome =
      .ok ⟨summary, req.text.length, summary.length⟩ ∧
    0 ≤ req.text.length ∧ 0 ≤ summary.length := by
  unfold summarize_text summarize_body
  rw [if_neg (not_not_intro hmodel)]
  simp only [truncate_eq_take, hpipe]
  exact ⟨trivial, trivial, Nat.zero_le _, Nat.zero_le _⟩

/-- Witness for claim C6 at a concrete request and summarizer. -/
theorem summarize_success_spec_witness :
    (summarize_text demoSumEnv { text := demoText }).pipelineInputs =
      [demoText.take 1024] ∧
    (summarize_text demoSumEnv { text := demoText }).outcome =
      .ok ⟨"A short summary.".toList, demoText.length,
        "A short summary.".toList.length⟩ ∧
    0 ≤ demoText.length ∧ 0 ≤ "A short summary.".toList.length :=
  summarize_success_spec demoSumEnv { text := demoText }
    "A short summary.".toList (by decide) rfl

/-- Claim C10: on a supported pair with input longer than 512 chars, the
translation pipeline receives only the first 512 characters, while both
the response and the persisted document carry the full input as
`original_text`. -/
theorem translate_truncation_spec (env : TransEnv) (req : TranslateRequest)
    (model_key : String) (translated : List Char)
    (hpair : model_map.lookup (pyLower req.source_lang, pyLower req.target_lang)
      = some model_key)
    (hmodel : model_key ∈ env.models)
    (hlen : req.text.length > 512)
    (htrans : env.translator model_key (req.text.take 512) = .ok translated) :
    (translate_text env req).pipelineInputs = [req.text.take 512] ∧
    (translate_text env req).outcome =
      .ok ⟨req.text, translated, req.source_lang, req.target_lang⟩ ∧
    (translate_text env req).dbOps =
      [.insertOne ⟨env.newId, "translation", req.text,
        .translationResult translated req.source_lang req.target_lang,
        env.now⟩] := by
  unfold translate_text translate_body
  simp only [hpair, if_neg (not_not_intro hmodel), if_pos hlen, htrans]
  exact ⟨trivial, trivial, trivial⟩

/-- Witness for claim C10 at a concrete 600-character input. -/
theorem translate_truncation_spec_witness :
    (translate_text demoTransEnv ⟨demoLongText, "en", "es"⟩).pipelineInputs =
      [demoLongText.take 512] ∧
    (translate_text demoTransEnv ⟨demoLongText, "en", "es"⟩).outcome =
      .ok ⟨demoLongText, "hola".toList, "en", "es"⟩ ∧
    (translate_text demoTransEnv ⟨demoLongText, "en", "es"⟩).dbOps =
      [.insertOne ⟨"id0", "translation", demoLongText,
        .translationResult "hola".toList "en" "es", "t0"⟩] :=
  translate_truncation_spec demoTransEnv ⟨demoLongText, "en", "es"⟩
    "translator_en_es" "hola".toList (by decide) (by decide)
    (by simp only [demoLongText, List.length_replicate]; omega) rfl

/-- Claim C5: when the LLM reply does not parse into the expected
question schema (either `json.loads` fails or the schema extraction
does), the quiz handler answers 500 and issues no database write. -/
theorem quiz_malformed_no_persist (env : QuizEnv) (req : QuizRequest)
    (raw : String) (f : QuizFailure)
    (hkey : ¬ env.emergent_key.getD "" = "")
    (hllm : env.sendMessage req.num_questions req.text = .ok raw)
    (hparse : parseQuizResponse env.jsonLoads raw = .error f) :
    (∃ d, (generate_quiz env req).outcome = .error ⟨500, d⟩) ∧
    (generate_quiz env req).dbOps = [] := by
  unfold generate_quiz generate_quiz_body
  simp only [if_neg hkey, hllm, hparse]
  cases f <;> exact ⟨⟨_, rfl⟩, rfl⟩

/-- Witness for claim C5 at a concrete non-JSON LLM reply. -/
theorem quiz_malformed_no_persist_witness :
    (∃ d, (generate_quiz demoQuizEnv ⟨demoText, 5⟩).outcome = .error ⟨500, d⟩) ∧
    (generate_quiz demoQuizEnv ⟨demoText, 5⟩).dbOps = [] :=
  quiz_malformed_no_persist demoQuizEnv ⟨demoText, 5⟩ "this is not json"
    (.decodeError "Expecting value: line 1 column 1 (char 0)")
    (by decide) rfl rfl

/-- Claim C3: on every collection state the history route returns at
most 20 records, ordered newest-first by timestamp, and each returned
record is a stored document with its internal `_id` stripped. -/
theorem get_history_spec (coll : List StoredDoc) :
    (get_history coll).length ≤ 20 ∧
    List.Pairwise (fun a b : HistoryDoc => b.timestamp ≤ a.timestamp)
      (get_history coll) ∧
    ∀ d ∈ get_history coll, ∃ s, s ∈ coll ∧ d = s.stripMongoId := by
  refine ⟨?_, ?_, ?_⟩
  · unfold get_history
    rw [List.length_map]
    exact List.length_take_le 20 _
  · unfold get_history
    refine List.Pairwise.map _ (fun a b hab => hab) ?_
    exact List.Pairwise.sublist (List.take_sublist _ _)
      (List.sorted_insertionSort tsDesc coll)
  · intro d hd
    unfold get_history at hd
    rw [List.mem_map] at hd
    obtain ⟨s, hs, rfl⟩ := hd
    exact ⟨s, (List.mem_insertionSort tsDesc).mp (List.mem_of_mem_take hs), rfl⟩

/-- Witness for claim C3 at a concrete three-document collection. -/
theorem get_history_spec_witness :
    (get_history demoColl).length ≤ 20 ∧
    List.Pairwise (fun a b : HistoryDoc => b.timestamp ≤ a.timestamp)
      (get_history demoColl) ∧
    ∀ d ∈ get_history demoColl, ∃ s, s ∈ demoColl ∧ d = s.stripMongoId :=
  get_history_spec demoColl

/-- Claim C9: every database operation any handler issues is an insert,
and a successful summarize, translate, or quiz request issues exactly
one; the history route only reads. -/
theorem saved_content_insert_only :
    (∀ (env : SumEnv) (req : SummarizeRequest),
      (∀ op ∈ (summarize_text env req).dbOps, op.isInsert = true) ∧
      ∀ resp, (summarize_text env req).outcome = .ok resp →
        (summarize_text env req).dbOps.length = 1) ∧
    (∀ (env : TransEnv) (req : TranslateRequest),
      (∀ op ∈ (translate_text env req).dbOps, op.isInsert = true) ∧
      ∀ resp, (translate_text env req).outcome = .ok resp →
        (translate_text env req).dbOps.length = 1) ∧
    (∀ (env : QuizEnv) (req : QuizRequest),
      (∀ op ∈ (generate_quiz env req).dbOps, op.isInsert = true) ∧
      ∀ resp, (generate_quiz env req).outcome = .ok resp →
        (generate_quiz env req).dbOps.length = 1) := by
  refine ⟨?_, ?_, ?_⟩
  · intro env req
    rcases hb : summarize_body env req with ⟨e | ⟨resp, doc⟩, pins⟩ <;>
      simp [summarize_text, hb, DbOp.isInsert]
  · intro env req
    rcases hb : translate_body env req with ⟨e | ⟨resp, doc⟩, pins⟩
    · rcases e with ⟨s, d⟩ | m <;> simp [translate_text, hb, DbOp.isInsert]
    · simp [translate_text, hb, DbOp.isInsert]
  · intro env req
    rcases hb : generate_quiz_body env req with f | ⟨resp, doc⟩
    · rcases f with e | m | m <;> simp [generate_quiz, hb]
    · simp [generate_quiz, hb, DbOp.isInsert]

end SmartLearn
